import Mathlib

/-!
# Verification of Easy3D's `SurfaceMeshPicker`
  (src/easy3d/gui/picker_surface_mesh.cpp)

A shallow embedding of the surface-mesh picker. Coordinates are exact
rationals (ℚ). External collaborators that live outside this translation
unit — the camera (`unproject`, `project`, `picking_line` from the `Picker`
base class) and the geometry utilities (`Plane3::intersect`,
`Segment3::squared_ditance`, `Segment2::squared_ditance`, `do_intersect`)
— are abstracted as parameters (`Camera`, `Geom`), so every theorem holds
for any behaviour of those collaborators. Mesh-element handles are
`Option Nat` (`none` = the invalid default-constructed handle). The C++
`float dist = std::sqrt(d2); if (dist < r)` tests are embedded in exact
arithmetic as `0 < r ∧ d2 < r * r`, which is equivalent to
`Real.sqrt d2 < r` for `d2 ≥ 0`.
-/

/-- 3D point/vector with exact rational coordinates (easy3d `vec3`). -/
structure Vec3 where
  x : ℚ
  y : ℚ
  z : ℚ
deriving DecidableEq, Repr

/-- 2D point with exact rational coordinates (easy3d `vec2`). -/
structure Vec2 where
  x : ℚ
  y : ℚ
deriving DecidableEq, Repr

def Vec3.sub (a b : Vec3) : Vec3 := ⟨a.x - b.x, a.y - b.y, a.z - b.z⟩

def Vec3.dot (a b : Vec3) : ℚ := a.x * b.x + a.y * b.y + a.z * b.z

/-- easy3d `distance2(p, q)`: squared Euclidean distance of two 3D points. -/
def distance2 (a b : Vec3) : ℚ := Vec3.dot (a.sub b) (a.sub b)

/-- Squared Euclidean distance of two 2D points (easy3d `distance(p,q)^2`). -/
def distance2v2 (a b : Vec2) : ℚ := (a.x - b.x) * (a.x - b.x) + (a.y - b.y) * (a.y - b.y)

/-- easy3d `Plane3`, built as `Plane3(point, normal)`. -/
structure Plane3 where
  p : Vec3
  n : Vec3
deriving DecidableEq

/-- easy3d `Line3` (non-oriented picking line): base point and direction. -/
structure Line3 where
  a : Vec3
  d : Vec3
deriving DecidableEq

/-- A halfedge of the mesh: its handle index plus its source and target
vertex indices (`from_vertex`/`to_vertex`). -/
structure Halfedge where
  id : Nat
  from_v : Nat
  to_v : Nat
deriving DecidableEq, Repr

/-- A face of the mesh: its boundary halfedges in circulator order
(`model->halfedges(face)`); the first entry is `model->halfedge(face)`. -/
structure MeshFace where
  hedges : List Halfedge
deriving DecidableEq

/-- The part of `SurfaceMesh` the picker reads: faces indexed by handle,
vertex positions, face normals (`compute_face_normal`), and the optional
`f:triangle_range` face property mapping a face to an inclusive
`(first, last)` pair of triangle indices. -/
structure Mesh where
  mfaces : List MeshFace
  pos : Nat → Vec3
  fnormal : Nat → Vec3
  triangle_range : Option (Nat → Int × Int)

/-- The face count `model->faces_size()`. -/
def Mesh.faces_size (m : Mesh) : Nat := m.mfaces.length

/-- The circulator `model->halfedges(face)`: boundary halfedges of face `f`. -/
def Mesh.face_hedges (m : Mesh) (f : Nat) : List Halfedge :=
  (m.mfaces.getD f ⟨[]⟩).hedges

/-- The camera collaborator of the `Picker` base class: `unproject(x, y, depth)`,
`project(p)`, and `picking_line(x, y)`; all abstract here. -/
structure Camera where
  unproject : Int → Int → ℚ → Vec3
  project : Vec3 → Vec2
  picking_line : Int → Int → Line3

/-- The geometry utilities the picker calls but that live outside this
translation unit, kept abstract: `Plane3::intersect(line)` (returns the
intersection point when it exists), `Segment3::squared_ditance(point)` and
`Segment2::squared_ditance(point)` (segment given by its two endpoints),
and `do_intersect(model, face, oriented_line)` with the oriented line
given by its near and far unprojection points. -/
structure Geom where
  plane_intersect : Plane3 → Line3 → Option Vec3
  seg_sqdist3 : Vec3 → Vec3 → Vec3 → ℚ
  seg_sqdist2 : Vec2 → Vec2 → Vec2 → ℚ
  do_intersect : Mesh → Nat → Vec3 → Vec3 → Bool

/-- The picker's mutable fields: `use_gpu_`, `program_` (whether the shader
program pointer is non-null), `picked_face_`, `picked_point_`,
`hit_resolution_`. -/
structure PickerState where
  use_gpu_ : Bool
  program_ : Bool
  picked_face_ : Option Nat
  picked_point_ : Vec3
  hit_resolution_ : ℚ
deriving DecidableEq

/-- The picker state as established by the constructor
`SurfaceMeshPicker(cam)`: `hit_resolution_(15)`, `program_(nullptr)`,
`use_gpu_ = true`, default (invalid) picked face and default point. -/
def init_picker : PickerState := ⟨true, false, none, ⟨0, 0, 0⟩, 15⟩

/-- Picker state together with the global `ShaderManager` cache (whether
`get_program("selection/selection_single_primitive")` finds a program). -/
structure GlobalState where
  picker : PickerState
  mgr_has_program : Bool
deriving DecidableEq

/-- Per-call external inputs: whether `create_program_from_files` would
succeed this call, and the triangle id decoded from the framebuffer pixel
(`rgb::rgba(c[0], c[1], c[2], c[3])`). -/
structure CallEnv where
  compile_ok : Bool
  pixel_id : Int
deriving DecidableEq

/-- Embeds `SurfaceMeshPicker::face_plane(model, face)`: plane through the target
vertex of the face's first boundary halfedge, with the face normal. -/
def face_plane (m : Mesh) (f : Nat) : Plane3 :=
  ⟨m.pos ((m.face_hedges f).headD ⟨0, 0, 0⟩).to_v, m.fnormal f⟩

/-- Exact-arithmetic embedding of `std::sqrt(d2) < r` (the acceptance test
`dist < hit_resolution_`): true iff `0 < r` and `d2 < r * r`. -/
def dist_lt (d2 r : ℚ) : Bool := decide (0 < r) && decide (d2 < r * r)

/-- The ascending index list `[s, s+1, ..., s+n-1]`, the iteration space of
the picker's `for` loops. -/
def count_range (s n : Nat) : List Nat :=
  match n with
  | 0 => []
  | k + 1 => s :: count_range (s + 1) k

/-- One iteration of the sequential reduction loop of `pick_face_cpu`
(lines 200–217): if face `i` is hit-marked, intersect its supporting plane
with the picking line; when the intersection exists and its squared
distance to `p_near` is strictly below the best so far, `(i, point,
squared_distance)` becomes the new best. `none` is the initial
`FLT_MAX`/invalid accumulator. -/
def cpu_step (geom : Geom) (m : Mesh) (line : Line3) (p_near : Vec3)
    (status : Nat → Bool) (i : Nat) (acc : Option (Nat × Vec3 × ℚ)) :
    Option (Nat × Vec3 × ℚ) :=
  if status i then
    match geom.plane_intersect (face_plane m i) line with
    | some p =>
      let s := distance2 p p_near
      match acc with
      | none => some (i, p, s)
      | some (j, q, sb) => if s < sb then some (i, p, s) else some (j, q, sb)
    | none => acc
  else acc

/-- The sequential reduction loop of `pick_face_cpu` (lines 199–218) over a
list of face indices. -/
def cpu_scan (geom : Geom) (m : Mesh) (line : Line3) (p_near : Vec3)
    (status : Nat → Bool) : List Nat → Option (Nat × Vec3 × ℚ) → Option (Nat × Vec3 × ℚ)
  | [], acc => acc
  | i :: rest, acc =>
    cpu_scan geom m line p_near status rest (cpu_step geom m line p_near status i acc)

/-- Embeds `SurfaceMeshPicker::pick_face_cpu(model, x, y)` (lines 183–221):
unproject near and far points, mark each face's status with `do_intersect`
against the oriented line, reset `picked_face_`, then run the sequential
reduction; on a best hit store face and impact point. Returns the picked
handle and the updated picker state. -/
def pick_face_cpu (geom : Geom) (cam : Camera) (m : Mesh) (x y : Int)
    (st : PickerState) : Option Nat × PickerState :=
  match cpu_scan geom m (cam.picking_line x y) (cam.unproject x y 0)
      (fun i => geom.do_intersect m i (cam.unproject x y 0) (cam.unproject x y 1))
      (count_range 0 m.faces_size) none with
  | none => (none, { st with picked_face_ := none })
  | some (j, p, _) => (some j, { st with picked_face_ := some j, picked_point_ := p })

/-- The test `id >= range.first && id <= range.second`: the inclusive triangle-range
membership test of `pick_face_gpu`. -/
def in_range (r : Int × Int) (id : Int) : Bool := decide (r.1 ≤ id) && decide (id ≤ r.2)

/-- The fallback loop of `pick_face_gpu` (lines 315–321): scan faces in
index order and return the first whose inclusive triangle range contains
`id`. -/
def scan_ranges (tr : Nat → Int × Int) (id : Int) : List Nat → Option Nat
  | [] => none
  | i :: rest => if in_range (tr i) id then some i else scan_ranges tr id rest

/-- Embeds `SurfaceMeshPicker::pick_face_gpu(model, x, y)` (lines 224–326), after
the offscreen render and pixel readback that produce the decoded id
(`env.pixel_id`): reset `picked_face_`; for `id ≥ 0` require the
`f:triangle_range` property (logged error and invalid face when absent),
try the triangle-mesh fast path (`id` a valid face index whose own range
contains `id`), else fall back to the linear range scan. Returns the
picked handle and whether an error was logged. -/
def gpu_decode (env : CallEnv) (m : Mesh) : Option Nat × Bool :=
  if 0 ≤ env.pixel_id then
    match m.triangle_range with
    | none => (none, true)
    | some tr =>
      if env.pixel_id.toNat < m.faces_size ∧
          in_range (tr env.pixel_id.toNat) env.pixel_id then
        (some env.pixel_id.toNat, false)
      else
        match scan_ranges tr env.pixel_id (count_range 0 m.faces_size) with
        | some fid => (some fid, false)
        | none => (none, false)
  else (none, false)

/-- In every branch of lines 287–326 the final value of `picked_face_`
equals the returned handle (it is reset to the invalid handle first and
re-assigned exactly when a face is returned), so the state update is the
uniform `picked_face_ := returned handle`; `picked_point_` and `use_gpu_`
are untouched. -/
def pick_face_gpu (env : CallEnv) (m : Mesh) (st : PickerState) :
    Option Nat × PickerState × Bool :=
  ((gpu_decode env m).1, { st with picked_face_ := (gpu_decode env m).1 },
    (gpu_decode env m).2)

/-- The outcome of one `pick_face` call: returned handle, new global state,
whether the GPU path was taken, whether `create_program_from_files` was
attempted, and whether an error was logged. -/
structure CallResult where
  ret : Option Nat
  state : GlobalState
  took_gpu : Bool
  attempted_compile : Bool
  err_logged : Bool
deriving DecidableEq

/-- Embeds `SurfaceMeshPicker::pick_face(model, x, y)` (lines 48–67): null mesh
returns the invalid handle untouched; in GPU mode, look the shader program
up in the `ShaderManager`, compile it on a miss (a successful compile is
registered in the manager), and clear `use_gpu_` when the program is still
null; then dispatch to the GPU or CPU path. -/
def pick_face (geom : Geom) (cam : Camera) (env : CallEnv) (model : Option Mesh)
    (x y : Int) (g : GlobalState) : CallResult :=
  match model with
  | none => ⟨none, g, false, false, false⟩
  | some m =>
    let st := g.picker
    let resolved :=
      if st.use_gpu_ then
        if g.mgr_has_program then
          ({ st with program_ := true }, g.mgr_has_program, false)
        else
          ({ st with program_ := env.compile_ok, use_gpu_ := env.compile_ok },
            env.compile_ok, true)
      else (st, g.mgr_has_program, false)
    let st1 := resolved.1
    let mgr1 := resolved.2.1
    let attempted := resolved.2.2
    if st1.use_gpu_ then
      let r := pick_face_gpu env m st1
      ⟨r.1, ⟨r.2.1, mgr1⟩, true, attempted, r.2.2⟩
    else
      let r := pick_face_cpu geom cam m x y st1
      ⟨r.1, ⟨r.2, mgr1⟩, false, attempted, false⟩

/-- One iteration of the nearest-vertex loop of `pick_vertex` (lines
79–86): keep the target vertex of `h` when its squared distance to the
cached impact point strictly improves on the best so far. -/
def vertex_step (m : Mesh) (pt : Vec3) (acc : Option (Nat × ℚ)) (h : Halfedge) :
    Option (Nat × ℚ) :=
  let s := distance2 (m.pos h.to_v) pt
  match acc with
  | none => some (h.to_v, s)
  | some (w, sb) => if s < sb then some (h.to_v, s) else some (w, sb)

/-- The nearest-vertex loop of `pick_vertex` (lines 77–86): over the face's
boundary halfedges, track the target vertex with minimum squared distance
to the cached impact point; strict `<` keeps the first minimiser. -/
def closest_vertex (m : Mesh) (f : Nat) (pt : Vec3) : Option (Nat × ℚ) :=
  (m.face_hedges f).foldl (vertex_step m pt) none

/-- Embeds `SurfaceMeshPicker::pick_vertex(model, picked_face, x, y)` (lines
70–101): reject (logged error) a face that is invalid or differs from the
cached `picked_face_`; otherwise take the nearest boundary vertex to
`picked_point_` and accept it only when its projection is strictly within
`hit_resolution_` of `(x, y)`. Returns (handle, state, error-logged); the
function never writes the picker's fields. -/
def pick_vertex (cam : Camera) (m : Mesh) (face : Option Nat) (x y : Int)
    (st : PickerState) : Option Nat × PickerState × Bool :=
  match face with
  | none => (none, st, true)
  | some f =>
    if some f ≠ st.picked_face_ then (none, st, true)
    else
      match closest_vertex m f st.picked_point_ with
      | none => (none, st, false)
      | some (v, _) =>
        let q := cam.project (m.pos v)
        let d2 := distance2v2 q ⟨(x : ℚ), (y : ℚ)⟩
        if dist_lt d2 st.hit_resolution_ then (some v, st, false) else (none, st, false)

/-- The constant `static double threshold = 1e-10` (line 121): the degenerate-edge
squared-distance threshold. -/
def degen_threshold : ℚ := 1 / 10000000000

/-- One iteration of the nearest-edge loop of `pick_edge` (lines 122–133):
consider edge `h` only when its endpoints are strictly more than
`degen_threshold` apart in squared distance, and keep it when its squared
segment distance to the cached impact point strictly improves on the best
so far. -/
def edge_step (geom : Geom) (m : Mesh) (pt : Vec3) (acc : Option (Halfedge × ℚ))
    (h : Halfedge) : Option (Halfedge × ℚ) :=
  if degen_threshold < distance2 (m.pos h.from_v) (m.pos h.to_v) then
    let d := geom.seg_sqdist3 (m.pos h.from_v) (m.pos h.to_v) pt
    match acc with
    | none => some (h, d)
    | some (e, db) => if d < db then some (h, d) else some (e, db)
  else acc

/-- The nearest-edge loop of `pick_edge` (lines 117–133) over the face's
boundary halfedges. -/
def closest_edge (geom : Geom) (m : Mesh) (f : Nat) (pt : Vec3) :
    Option (Halfedge × ℚ) :=
  (m.face_hedges f).foldl (edge_step geom m pt) none

/-- Embeds `SurfaceMeshPicker::pick_edge(model, picked_face, x, y)` (lines
110–151): reject (logged error) a face that is invalid or differs from the
cached `picked_face_`; otherwise take the nearest non-degenerate boundary
edge to `picked_point_` and accept it only when the screen-space
point-to-segment distance of its projected endpoints to `(x, y)` is
strictly below `hit_resolution_`. Returns (handle, state, error-logged);
the function never writes the picker's fields. -/
def pick_edge (geom : Geom) (cam : Camera) (m : Mesh) (face : Option Nat)
    (x y : Int) (st : PickerState) : Option Halfedge × PickerState × Bool :=
  match face with
  | none => (none, st, true)
  | some f =>
    if some f ≠ st.picked_face_ then (none, st, true)
    else
      match closest_edge geom m f st.picked_point_ with
      | none => (none, st, false)
      | some (h, _) =>
        let s := cam.project (m.pos h.from_v)
        let t := cam.project (m.pos h.to_v)
        let s_dist := geom.seg_sqdist2 s t ⟨(x : ℚ), (y : ℚ)⟩
        if dist_lt s_dist st.hit_resolution_ then (some h, st, false)
        else (none, st, false)

/-- Embeds `SurfaceMeshPicker::picked_point()` (lines 175–180): log an error when
`picked_face_` is invalid, then return the stored point regardless.
Returns (error-logged, value). -/
def picked_point (st : PickerState) : Bool × Vec3 :=
  (st.picked_face_.isNone, st.picked_point_)

/-- Embeds `SurfaceMeshPicker::picked_face()` (lines 167–172): log an error when
`picked_face_` is invalid, then return it regardless. -/
def picked_face (st : PickerState) : Bool × Option Nat :=
  (st.picked_face_.isNone, st.picked_face_)

/-- Run a sequence of `pick_face` calls, threading the global state and
collecting each call's result. -/
def run_calls (geom : Geom) (cam : Camera) :
    List (CallEnv × Option Mesh × Int × Int) → GlobalState → GlobalState × List CallResult
  | [], g => (g, [])
  | (env, model, x, y) :: rest, g =>
    let r := pick_face geom cam env model x y g
    let rec_r := run_calls geom cam rest r.state
    (rec_r.1, r :: rec_r.2)

/-- Face `i` is a candidate of the CPU scan: its status was marked hit by
`do_intersect` against the oriented near/far line, and its supporting
plane's intersection with the non-oriented picking line exists. -/
def cpu_cand (geom : Geom) (cam : Camera) (m : Mesh) (x y : Int) (i : Nat) : Bool :=
  geom.do_intersect m i (cam.unproject x y 0) (cam.unproject x y 1) &&
    (geom.plane_intersect (face_plane m i) (cam.picking_line x y)).isSome

/-- Invariant of the CPU reduction loop after the indices below `bound`
have been processed: an empty accumulator means no candidate was seen; a
filled one records a candidate face below `bound`, its intersection point
and squared distance, minimality of that distance among all candidates
below `bound`, and the first-wins tie-break. -/
def scan_good (geom : Geom) (m : Mesh) (line : Line3) (p_near : Vec3)
    (status : Nat → Bool) (bound : Nat) :
    Option (Nat × Vec3 × ℚ) → Prop
  | none => ∀ i, i < bound → status i = false ∨
      geom.plane_intersect (face_plane m i) line = none
  | some (j, p, sv) =>
      j < bound ∧ status j = true ∧
      geom.plane_intersect (face_plane m j) line = some p ∧
      sv = distance2 p p_near ∧
      ∀ i q, i < bound → status i = true →
        geom.plane_intersect (face_plane m i) line = some q →
          sv ≤ distance2 q p_near ∧ (distance2 q p_near = sv → j ≤ i)

/-- Sample camera instantiation for the concrete witnesses: orthographic,
`unproject (x, y, d) = (x, y, d)`, `project` drops the z coordinate, and
the picking line goes straight down the z axis through `(x, y, 0)`. -/
def wcam : Camera where
  unproject := fun x y d => ⟨(x : ℚ), (y : ℚ), d⟩
  project := fun v => ⟨v.x, v.y⟩
  picking_line := fun x y => ⟨⟨(x : ℚ), (y : ℚ), 0⟩, ⟨0, 0, 1⟩⟩

/-- Sample geometry instantiation for the concrete witnesses: exact
plane/line intersection, the distance to the source endpoint as a simple
segment-distance stand-in, and a bounding test that marks every face as
hit. -/
def wgeom : Geom where
  plane_intersect := fun pl l =>
    if Vec3.dot pl.n l.d = 0 then none
    else
      some ⟨l.a.x + Vec3.dot pl.n (pl.p.sub l.a) / Vec3.dot pl.n l.d * l.d.x,
            l.a.y + Vec3.dot pl.n (pl.p.sub l.a) / Vec3.dot pl.n l.d * l.d.y,
            l.a.z + Vec3.dot pl.n (pl.p.sub l.a) / Vec3.dot pl.n l.d * l.d.z⟩
  seg_sqdist3 := fun s _ p => distance2 s p
  seg_sqdist2 := fun s _ p => distance2v2 s p
  do_intersect := fun _ _ _ _ => true

/-- Witness mesh with two faces: face 0's supporting-plane point is at
z = 2 and face 1's at z = 1, both with normal (0, 0, 1), so the picking
line down the z axis meets face 1 first. -/
def wmesh : Mesh where
  mfaces := [⟨[⟨0, 0, 1⟩]⟩, ⟨[⟨1, 2, 3⟩]⟩]
  pos := fun v => if v = 1 then ⟨0, 0, 2⟩ else if v = 3 then ⟨0, 0, 1⟩ else ⟨0, 0, 0⟩
  fnormal := fun _ => ⟨0, 0, 1⟩
  triangle_range := none

/-- Witness triangle-range property: face 0 owns triangle 0, face 1 owns
triangles 1–2 (a quad triangulated into two triangles). -/
def wtr : Nat → Int × Int := fun f => if f = 0 then (0, 0) else (1, 2)

/-- The witness mesh equipped with the `f:triangle_range` property. -/
def wmesh2 : Mesh := { wmesh with triangle_range := some wtr }

/-- The witness mesh with a normal orthogonal to the picking direction, so
every supporting-plane/line intersection fails. -/
def wmesh3 : Mesh := { wmesh with fnormal := fun _ => ⟨1, 0, 0⟩ }

/-- Witness mesh with one face whose boundary starts with a degenerate
halfedge (both endpoints at the origin) followed by a regular one. -/
def wmesh4 : Mesh where
  mfaces := [⟨[⟨0, 0, 0⟩, ⟨1, 0, 1⟩]⟩]
  pos := fun v => if v = 1 then ⟨0, 0, 2⟩ else ⟨0, 0, 0⟩
  fnormal := fun _ => ⟨0, 0, 1⟩
  triangle_range := none

/-- Witness call environment: compilation would succeed, decoded pixel id 2. -/
def wenv : CallEnv := ⟨true, 2⟩

/-- Witness call environment: decoded pixel id −1 (background). -/
def wenv_neg : CallEnv := ⟨true, -1⟩

/-- Witness call environment where shader compilation fails. -/
def wenv_fail : CallEnv := ⟨false, 0⟩

/-- Witness global state: fresh picker, shader manager already has the
program. -/
def wg : GlobalState := ⟨init_picker, true⟩

/-- Witness global state: fresh picker, shader manager cache empty. -/
def wg_nomgr : GlobalState := ⟨init_picker, false⟩

/-- Witness global state that differs from `wg` only in the cached picked
face and impact point fields. -/
def wg2 : GlobalState := ⟨⟨true, false, some 0, ⟨7, 7, 7⟩, 15⟩, true⟩

/-- Witness picker state whose cached picked face is face 0, with the
cached impact point at the origin. -/
def wst : PickerState := { init_picker with picked_face_ := some 0 }

lemma scan_good_extend (geom : Geom) (m : Mesh) (line : Line3) (p_near : Vec3)
    (status : Nat → Bool) (s : Nat) (acc : Option (Nat × Vec3 × ℚ))
    (h : scan_good geom m line p_near status s acc)
    (hs : status s = false ∨ geom.plane_intersect (face_plane m s) line = none) :
    scan_good geom m line p_near status (s + 1) acc := by
  cases acc with
  | none =>
    simp only [scan_good] at h ⊢
    intro i hi
    rcases Nat.lt_succ_iff_lt_or_eq.mp hi with h1 | h1
    · exact h i h1
    · subst h1; exact hs
  | some t =>
    obtain ⟨j, p, sv⟩ := t
    simp only [scan_good] at h ⊢
    obtain ⟨h1, h2, h3, h4, h5⟩ := h
    refine ⟨Nat.lt_succ_of_lt h1, h2, h3, h4, ?_⟩
    intro i q hi hsti hpi
    rcases Nat.lt_succ_iff_lt_or_eq.mp hi with hlt | heq
    · exact h5 i q hlt hsti hpi
    · subst heq
      rcases hs with hf | hn
      · rw [hsti] at hf; exact absurd hf (by simp)
      · rw [hpi] at hn; exact absurd hn (by simp)

lemma cpu_step_skip (geom : Geom) (m : Mesh) (line : Line3) (p_near : Vec3)
    (status : Nat → Bool) (i : Nat) (acc : Option (Nat × Vec3 × ℚ))
    (h : status i = false ∨ geom.plane_intersect (face_plane m i) line = none) :
    cpu_step geom m line p_near status i acc = acc := by
  rcases h with h | h
  · simp [cpu_step, h]
  · simp [cpu_step, h]

lemma cpu_step_first (geom : Geom) (m : Mesh) (line : Line3) (p_near : Vec3)
    (status : Nat → Bool) (i : Nat) (p : Vec3)
    (hst : status i = true)
    (hpi : geom.plane_intersect (face_plane m i) line = some p) :
    cpu_step geom m line p_near status i none = some (i, p, distance2 p p_near) := by
  simp [cpu_step, hst, hpi]

lemma cpu_step_better (geom : Geom) (m : Mesh) (line : Line3) (p_near : Vec3)
    (status : Nat → Bool) (i : Nat) (p : Vec3) (j : Nat) (q : Vec3) (sb : ℚ)
    (hst : status i = true)
    (hpi : geom.plane_intersect (face_plane m i) line = some p)
    (hlt : distance2 p p_near < sb) :
    cpu_step geom m line p_near status i (some (j, q, sb)) =
      some (i, p, distance2 p p_near) := by
  simp [cpu_step, hst, hpi, hlt]

lemma cpu_step_keep (geom : Geom) (m : Mesh) (line : Line3) (p_near : Vec3)
    (status : Nat → Bool) (i : Nat) (p : Vec3) (j : Nat) (q : Vec3) (sb : ℚ)
    (hst : status i = true)
    (hpi : geom.plane_intersect (face_plane m i) line = some p)
    (hge : ¬ distance2 p p_near < sb) :
    cpu_step geom m line p_near status i (some (j, q, sb)) = some (j, q, sb) := by
  simp [cpu_step, hst, hpi, hge]

lemma cpu_step_good (geom : Geom) (m : Mesh) (line : Line3) (p_near : Vec3)
    (status : Nat → Bool) (s : Nat) (acc : Option (Nat × Vec3 × ℚ))
    (h : scan_good geom m line p_near status s acc) :
    scan_good geom m line p_near status (s + 1)
      (cpu_step geom m line p_near status s acc) := by
  by_cases hst : status s = true
  · cases hpi : geom.plane_intersect (face_plane m s) line with
    | none =>
      rw [cpu_step_skip geom m line p_near status s acc (Or.inr hpi)]
      exact scan_good_extend geom m line p_near status s acc h (Or.inr hpi)
    | some p =>
      cases acc with
      | none =>
        rw [cpu_step_first geom m line p_near status s p hst hpi]
        simp only [scan_good] at h
        refine ⟨Nat.lt_succ_self s, hst, hpi, rfl, ?_⟩
        intro i q hi hsti hpq
        rcases Nat.lt_succ_iff_lt_or_eq.mp hi with hlt | heq
        · rcases h i hlt with hf | hn
          · rw [hsti] at hf; exact absurd hf (by simp)
          · rw [hpq] at hn; exact absurd hn (by simp)
        · subst heq
          rw [hpi] at hpq
          injection hpq with hq
          subst hq
          exact ⟨le_refl _, fun _ => le_refl _⟩
      | some t =>
        obtain ⟨j, q0, sb⟩ := t
        simp only [scan_good] at h
        obtain ⟨h1, h2, h3, h4, h5⟩ := h
        by_cases hcmp : distance2 p p_near < sb
        · rw [cpu_step_better geom m line p_near status s p j q0 sb hst hpi hcmp]
          refine ⟨Nat.lt_succ_self s, hst, hpi, rfl, ?_⟩
          intro i q hi hsti hpq
          rcases Nat.lt_succ_iff_lt_or_eq.mp hi with hlt | heq
          · have hq := h5 i q hlt hsti hpq
            constructor
            · exact le_of_lt (lt_of_lt_of_le hcmp hq.1)
            · intro heq2
              exact absurd (lt_of_lt_of_le hcmp hq.1) (by rw [heq2]; exact lt_irrefl _)
          · subst heq
            rw [hpi] at hpq
            injection hpq with hq2
            subst hq2
            exact ⟨le_refl _, fun _ => le_refl _⟩
        · rw [cpu_step_keep geom m line p_near status s p j q0 sb hst hpi hcmp]
          refine ⟨Nat.lt_succ_of_lt h1, h2, h3, h4, ?_⟩
          intro i q hi hsti hpq
          rcases Nat.lt_succ_iff_lt_or_eq.mp hi with hlt | heq
          · exact h5 i q hlt hsti hpq
          · subst heq
            rw [hpi] at hpq
            injection hpq with hq2
            subst hq2
            exact ⟨le_of_not_lt hcmp, fun _ => Nat.le_of_lt h1⟩
  · have hst2 : status s = false := by simpa using hst
    rw [cpu_step_skip geom m line p_near status s acc (Or.inl hst2)]
    exact scan_good_extend geom m line p_near status s acc h (Or.inl hst2)

lemma cpu_scan_good (geom : Geom) (m : Mesh) (line : Line3) (p_near : Vec3)
    (status : Nat → Bool) :
    ∀ (n s : Nat) (acc : Option (Nat × Vec3 × ℚ)),
      scan_good geom m line p_near status s acc →
      scan_good geom m line p_near status (s + n)
        (cpu_scan geom m line p_near status (count_range s n) acc) := by
  intro n
  induction n with
  | zero => intro s acc h; simpa [count_range, cpu_scan] using h
  | succ k ih =>
    intro s acc h
    have h1 := cpu_step_good geom m line p_near status s acc h
    have h2 := ih (s + 1) (cpu_step geom m line p_near status s acc) h1
    have he : s + (k + 1) = (s + 1) + k := by omega
    rw [he]
    simpa [count_range, cpu_scan] using h2

/-- C1: For every non-null mesh and screen point, the CPU path selects,
among all faces whose bounding test marked them as hit and whose
supporting plane (one boundary vertex plus face normal) intersects the
non-oriented picking line, the face whose intersection point has minimum
squared distance to the near-plane unprojection point; the comparison is
strict `<`, so on equal distances the smallest face index wins, and a
hit-marked face whose plane-line intersection fails is silently skipped
(it can never be the returned face, since any returned face has an
intersection point). -/
theorem pick_face_cpu_selects_min_distance_face
    (geom : Geom) (cam : Camera) (m : Mesh) (x y : Int) (st : PickerState) (j : Nat)
    (hj : (pick_face_cpu geom cam m x y st).1 = some j) :
    cpu_cand geom cam m x y j = true ∧ j < m.faces_size ∧
    ∃ p, geom.plane_intersect (face_plane m j) (cam.picking_line x y) = some p ∧
      (pick_face_cpu geom cam m x y st).2.picked_point_ = p ∧
      ∀ i q, i < m.faces_size → cpu_cand geom cam m x y i = true →
        geom.plane_intersect (face_plane m i) (cam.picking_line x y) = some q →
          distance2 p (cam.unproject x y 0) ≤ distance2 q (cam.unproject x y 0) ∧
          (distance2 q (cam.unproject x y 0) = distance2 p (cam.unproject x y 0) →
            j ≤ i) := by
  have h0 : scan_good geom m (cam.picking_line x y) (cam.unproject x y 0)
      (fun i => geom.do_intersect m i (cam.unproject x y 0) (cam.unproject x y 1))
      0 none := by
    intro i hi
    exact absurd hi (Nat.not_lt_zero i)
  have hg := cpu_scan_good geom m (cam.picking_line x y) (cam.unproject x y 0)
      (fun i => geom.do_intersect m i (cam.unproject x y 0) (cam.unproject x y 1))
      m.faces_size 0 none h0
  rw [Nat.zero_add] at hg
  unfold pick_face_cpu at hj ⊢
  cases hs : cpu_scan geom m (cam.picking_line x y) (cam.unproject x y 0)
      (fun i => geom.do_intersect m i (cam.unproject x y 0) (cam.unproject x y 1))
      (count_range 0 m.faces_size) none with
  | none =>
    rw [hs] at hj
    exact absurd hj (by simp)
  | some t =>
    obtain ⟨j0, p, sv⟩ := t
    rw [hs] at hg hj
    simp only [scan_good] at hg
    obtain ⟨h1, h2, h3, h4, h5⟩ := hg
    have hjj : j0 = j := by simpa using hj
    subst hjj
    refine ⟨by simp [cpu_cand, h2, h3], h1, p, h3, by simp, ?_⟩
    intro i q hi hci hpq
    have hsti : geom.do_intersect m i (cam.unproject x y 0) (cam.unproject x y 1) = true := by
      simp only [cpu_cand, Bool.and_eq_true] at hci
      exact hci.1
    have hres := h5 i q hi hsti hpq
    rw [h4] at hres
    exact hres

lemma scan_ranges_some_spec (tr : Nat → Int × Int) (id : Int) :
    ∀ (n s f : Nat),
      scan_ranges tr id (count_range s n) = some f →
      in_range (tr f) id = true ∧ s ≤ f ∧ f < s + n ∧
        ∀ i, s ≤ i → i < f → in_range (tr i) id = false := by
  intro n
  induction n with
  | zero =>
    intro s f h
    simp [count_range, scan_ranges] at h
  | succ k ih =>
    intro s f h
    simp only [count_range, scan_ranges] at h
    by_cases hs : in_range (tr s) id = true
    · rw [if_pos hs] at h
      injection h with hf
      subst hf
      refine ⟨hs, le_refl s, by omega, ?_⟩
      intro i h1 h2
      exact absurd (Nat.lt_of_le_of_lt h1 h2) (Nat.lt_irrefl s)
    · rw [if_neg hs] at h
      obtain ⟨a1, a2, a3, a4⟩ := ih (s + 1) f h
      refine ⟨a1, by omega, by omega, ?_⟩
      intro i h1 h2
      rcases Nat.eq_or_lt_of_le h1 with heq | hlt
      · subst heq
        simpa using hs
      · exact a4 i hlt h2

lemma scan_ranges_none_spec (tr : Nat → Int × Int) (id : Int) :
    ∀ (n s : Nat),
      scan_ranges tr id (count_range s n) = none ↔
        ∀ i, s ≤ i → i < s + n → in_range (tr i) id = false := by
  intro n
  induction n with
  | zero =>
    intro s
    simp only [count_range, scan_ranges]
    constructor
    · intro _ i h1 h2
      exact absurd h2 (by omega)
    · intro _
      trivial
  | succ k ih =>
    intro s
    simp only [count_range, scan_ranges]
    by_cases hs : in_range (tr s) id = true
    · rw [if_pos hs]
      constructor
      · intro h
        exact absurd h (by simp)
      · intro hall
        have hfalse := hall s (le_refl s) (by omega)
        rw [hs] at hfalse
        exact absurd hfalse (by simp)
    · rw [if_neg hs]
      rw [ih (s + 1)]
      constructor
      · intro hall i h1 h2
        rcases Nat.eq_or_lt_of_le h1 with heq | hlt
        · subst heq
          simpa using hs
        · exact hall i hlt (by omega)
      · intro hall i h1 h2
        exact hall i (by omega) (by omega)

/-- C2: In the GPU path, for every decoded triangle id ≥ 0 on a mesh
carrying the `f:triangle_range` property, the picked face is resolved by
first checking the fast path (id is a valid face index and lies inside
that face's own inclusive range); if that fails, a linear scan returns the
first face whose inclusive range contains id; if no range contains id, an
invalid face handle is returned. -/
theorem pick_face_gpu_resolves_triangle_id
    (env : CallEnv) (m : Mesh) (st : PickerState) (tr : Nat → Int × Int)
    (hid : 0 ≤ env.pixel_id) (htr : m.triangle_range = some tr) :
    (env.pixel_id.toNat < m.faces_size ∧
        in_range (tr env.pixel_id.toNat) env.pixel_id = true →
      (pick_face_gpu env m st).1 = some env.pixel_id.toNat) ∧
    (¬(env.pixel_id.toNat < m.faces_size ∧
        in_range (tr env.pixel_id.toNat) env.pixel_id = true) →
      ∀ f, (pick_face_gpu env m st).1 = some f →
        f < m.faces_size ∧ in_range (tr f) env.pixel_id = true ∧
        ∀ i, i < f → in_range (tr i) env.pixel_id = false) ∧
    ((pick_face_gpu env m st).1 = none ↔
      ∀ i, i < m.faces_size → in_range (tr i) env.pixel_id = false) := by
  have hproj : (pick_face_gpu env m st).1 = (gpu_decode env m).1 := rfl
  rw [hproj]
  unfold gpu_decode
  rw [if_pos hid]
  simp only [htr]
  by_cases hfast : env.pixel_id.toNat < m.faces_size ∧
      in_range (tr env.pixel_id.toNat) env.pixel_id = true
  · rw [if_pos hfast]
    refine ⟨fun _ => rfl, fun hn => absurd hfast hn, ?_⟩
    constructor
    · intro hcontra
      exact absurd hcontra (by simp)
    · intro hall
      have hfalse := hall env.pixel_id.toNat hfast.1
      rw [hfast.2] at hfalse
      exact absurd hfalse (by simp)
  · rw [if_neg hfast]
    cases hscan : scan_ranges tr env.pixel_id (count_range 0 m.faces_size) with
    | some fid =>
      refine ⟨fun hf => absurd hf hfast, ?_, ?_⟩
      · intro _ f hf
        have hf2 : fid = f := by simpa using hf
        subst hf2
        obtain ⟨a1, _, a3, a4⟩ := scan_ranges_some_spec tr env.pixel_id
          m.faces_size 0 fid hscan
        exact ⟨by omega, a1, fun i hi => a4 i (Nat.zero_le i) hi⟩
      · constructor
        · intro hcontra
          exact absurd hcontra (by simp)
        · intro hall
          have hnone := (scan_ranges_none_spec tr env.pixel_id m.faces_size 0).mpr
            (fun i _ h2 => hall i (by omega))
          rw [hscan] at hnone
          exact absurd hnone (by simp)
    | none =>
      refine ⟨fun hf => absurd hf hfast, ?_, ?_⟩
      · intro _ f hf
        exact absurd hf (by simp)
      · constructor
        · intro _
          intro i hi
          exact (scan_ranges_none_spec tr env.pixel_id m.faces_size 0).mp hscan
            i (Nat.zero_le i) (by omega)
        · intro _
          rfl

/-- Witness for C2: decoded id 2 on the two-face mesh with ranges
`[0,0]` and `[1,2]`; the fast path fails (2 is not a valid face index),
and the linear scan resolves id 2 to face 1. -/
theorem pick_face_gpu_resolves_triangle_id_witness :
    (0 ≤ wenv.pixel_id) ∧ wmesh2.triangle_range = some wtr ∧
    ((wenv.pixel_id.toNat < wmesh2.faces_size ∧
        in_range (wtr wenv.pixel_id.toNat) wenv.pixel_id = true →
      (pick_face_gpu wenv wmesh2 init_picker).1 = some wenv.pixel_id.toNat) ∧
    (¬(wenv.pixel_id.toNat < wmesh2.faces_size ∧
        in_range (wtr wenv.pixel_id.toNat) wenv.pixel_id = true) →
      ∀ f, (pick_face_gpu wenv wmesh2 init_picker).1 = some f →
        f < wmesh2.faces_size ∧ in_range (wtr f) wenv.pixel_id = true ∧
        ∀ i, i < f → in_range (wtr i) wenv.pixel_id = false) ∧
    ((pick_face_gpu wenv wmesh2 init_picker).1 = none ↔
      ∀ i, i < wmesh2.faces_size → in_range (wtr i) wenv.pixel_id = false)) :=
  ⟨by decide, rfl,
    pick_face_gpu_resolves_triangle_id wenv wmesh2 init_picker wtr (by decide) rfl⟩

/-- C3: `pick_vertex` and `pick_edge` return an invalid handle and log an
error whenever the supplied face does not equal the picker's cached picked
face (including when the supplied face is invalid), regardless of any
geometric proximity, and the cached picked state is not modified. -/
theorem refiner_rejects_mismatched_face
    (geom : Geom) (cam : Camera) (m : Mesh) (face : Option Nat) (x y : Int)
    (st : PickerState) (h : face = none ∨ face ≠ st.picked_face_) :
    pick_vertex cam m face x y st = (none, st, true) ∧
    pick_edge geom cam m face x y st = (none, st, true) := by
  cases face with
  | none => exact ⟨rfl, rfl⟩
  | some f =>
    have hne : (some f : Option Nat) ≠ st.picked_face_ := by
      rcases h with h | h
      · exact absurd h (by simp)
      · exact h
    constructor
    · simp only [pick_vertex]
      rw [if_pos hne]
    · simp only [pick_edge]
      rw [if_pos hne]

/-- Witness for C3: face 1 differs from the cached face 0, so both
refiners reject it with an error. -/
theorem refiner_rejects_mismatched_face_witness :
    ((some 1 : Option Nat) = none ∨ (some 1 : Option Nat) ≠ wst.picked_face_) ∧
    (pick_vertex wcam wmesh (some 1) 0 0 wst = (none, wst, true) ∧
     pick_edge wgeom wcam wmesh (some 1) 0 0 wst = (none, wst, true)) :=
  ⟨Or.inr (by decide),
    refiner_rejects_mismatched_face wgeom wcam wmesh (some 1) 0 0 wst
      (Or.inr (by decide))⟩

lemma pick_vertex_accept_eq (cam : Camera) (m : Mesh) (x y : Int)
    (st : PickerState) (f v : Nat) (sv : ℚ)
    (hpf : st.picked_face_ = some f)
    (hv : closest_vertex m f st.picked_point_ = some (v, sv)) :
    (pick_vertex cam m (some f) x y st).1 =
      if dist_lt (distance2v2 (cam.project (m.pos v)) ⟨(x : ℚ), (y : ℚ)⟩)
          st.hit_resolution_
      then some v else none := by
  by_cases hc : dist_lt (distance2v2 (cam.project (m.pos v)) ⟨(x : ℚ), (y : ℚ)⟩)
      st.hit_resolution_ = true
  · simp [pick_vertex, hpf, hv, hc]
  · have hc2 : dist_lt (distance2v2 (cam.project (m.pos v)) ⟨(x : ℚ), (y : ℚ)⟩)
        st.hit_resolution_ = false := by simpa using hc
    simp [pick_vertex, hpf, hv, hc2]

lemma pick_edge_accept_eq (geom : Geom) (cam : Camera) (m : Mesh) (x y : Int)
    (st : PickerState) (f : Nat) (e : Halfedge) (sd : ℚ)
    (hpf : st.picked_face_ = some f)
    (he : closest_edge geom m f st.picked_point_ = some (e, sd)) :
    (pick_edge geom cam m (some f) x y st).1 =
      if dist_lt (geom.seg_sqdist2 (cam.project (m.pos e.from_v))
          (cam.project (m.pos e.to_v)) ⟨(x : ℚ), (y : ℚ)⟩) st.hit_resolution_
      then some e else none := by
  by_cases hc : dist_lt (geom.seg_sqdist2 (cam.project (m.pos e.from_v))
      (cam.project (m.pos e.to_v)) ⟨(x : ℚ), (y : ℚ)⟩) st.hit_resolution_ = true
  · simp [pick_edge, hpf, he, hc]
  · have hc2 : dist_lt (geom.seg_sqdist2 (cam.project (m.pos e.from_v))
        (cam.project (m.pos e.to_v)) ⟨(x : ℚ), (y : ℚ)⟩) st.hit_resolution_ = false := by
      simpa using hc
    simp [pick_edge, hpf, he, hc2]

/-- C4: For every nearest-in-3D vertex or edge candidate, acceptance is a
strict less-than test against `hit_resolution_` in screen space: a
candidate at squared screen distance exactly `hit_resolution_²`
(i.e. distance exactly `hit_resolution_`) is rejected, while any strictly
smaller distance (with a positive resolution) is accepted. -/
theorem hit_resolution_strict_boundary
    (geom : Geom) (cam : Camera) (m : Mesh) (x y : Int) (st : PickerState)
    (f v : Nat) (sv : ℚ) (e : Halfedge) (sd : ℚ)
    (hpf : st.picked_face_ = some f)
    (hv : closest_vertex m f st.picked_point_ = some (v, sv))
    (he : closest_edge geom m f st.picked_point_ = some (e, sd)) :
    (distance2v2 (cam.project (m.pos v)) ⟨(x : ℚ), (y : ℚ)⟩ =
        st.hit_resolution_ * st.hit_resolution_ →
      (pick_vertex cam m (some f) x y st).1 = none) ∧
    (0 < st.hit_resolution_ →
      distance2v2 (cam.project (m.pos v)) ⟨(x : ℚ), (y : ℚ)⟩ <
        st.hit_resolution_ * st.hit_resolution_ →
      (pick_vertex cam m (some f) x y st).1 = some v) ∧
    (geom.seg_sqdist2 (cam.project (m.pos e.from_v)) (cam.project (m.pos e.to_v))
        ⟨(x : ℚ), (y : ℚ)⟩ = st.hit_resolution_ * st.hit_resolution_ →
      (pick_edge geom cam m (some f) x y st).1 = none) ∧
    (0 < st.hit_resolution_ →
      geom.seg_sqdist2 (cam.project (m.pos e.from_v)) (cam.project (m.pos e.to_v))
        ⟨(x : ℚ), (y : ℚ)⟩ < st.hit_resolution_ * st.hit_resolution_ →
      (pick_edge geom cam m (some f) x y st).1 = some e) := by
  refine ⟨?_, ?_, ?_, ?_⟩
  · intro hd
    rw [pick_vertex_accept_eq cam m x y st f v sv hpf hv, hd]
    have hfalse : dist_lt (st.hit_resolution_ * st.hit_resolution_)
        st.hit_resolution_ = false := by
      simp [dist_lt]
    rw [hfalse]
    simp
  · intro hr hlt
    rw [pick_vertex_accept_eq cam m x y st f v sv hpf hv]
    have htrue : dist_lt (distance2v2 (cam.project (m.pos v)) ⟨(x : ℚ), (y : ℚ)⟩)
        st.hit_resolution_ = true := by
      simp [dist_lt, hr, hlt]
    rw [htrue]
    simp
  · intro hd
    rw [pick_edge_accept_eq geom cam m x y st f e sd hpf he, hd]
    have hfalse : dist_lt (st.hit_resolution_ * st.hit_resolution_)
        st.hit_resolution_ = false := by
      simp [dist_lt]
    rw [hfalse]
    simp
  · intro hr hlt
    rw [pick_edge_accept_eq geom cam m x y st f e sd hpf he]
    have htrue : dist_lt (geom.seg_sqdist2 (cam.project (m.pos e.from_v))
        (cam.project (m.pos e.to_v)) ⟨(x : ℚ), (y : ℚ)⟩)
        st.hit_resolution_ = true := by
      simp [dist_lt, hr, hlt]
    rw [htrue]
    simp

/-- Witness for C4: on the cached face 0 the nearest vertex is vertex 1
(squared distance 4) and the nearest edge is halfedge 0; the acceptance
boundary conclusions hold at that instance. -/
theorem hit_resolution_strict_boundary_witness :
    wst.picked_face_ = some 0 ∧
    closest_vertex wmesh 0 wst.picked_point_ = some (1, 4) ∧
    closest_edge wgeom wmesh 0 wst.picked_point_ = some (⟨0, 0, 1⟩, 0) ∧
    ((distance2v2 (wcam.project (wmesh.pos 1)) ⟨((0 : Int) : ℚ), ((0 : Int) : ℚ)⟩ =
        wst.hit_resolution_ * wst.hit_resolution_ →
      (pick_vertex wcam wmesh (some 0) 0 0 wst).1 = none) ∧
     (0 < wst.hit_resolution_ →
      distance2v2 (wcam.project (wmesh.pos 1)) ⟨((0 : Int) : ℚ), ((0 : Int) : ℚ)⟩ <
        wst.hit_resolution_ * wst.hit_resolution_ →
      (pick_vertex wcam wmesh (some 0) 0 0 wst).1 = some 1) ∧
     (wgeom.seg_sqdist2 (wcam.project (wmesh.pos 0)) (wcam.project (wmesh.pos 1))
        ⟨((0 : Int) : ℚ), ((0 : Int) : ℚ)⟩ =
        wst.hit_resolution_ * wst.hit_resolution_ →
      (pick_edge wgeom wcam wmesh (some 0) 0 0 wst).1 = none) ∧
     (0 < wst.hit_resolution_ →
      wgeom.seg_sqdist2 (wcam.project (wmesh.pos 0)) (wcam.project (wmesh.pos 1))
        ⟨((0 : Int) : ℚ), ((0 : Int) : ℚ)⟩ <
        wst.hit_resolution_ * wst.hit_resolution_ →
      (pick_edge wgeom wcam wmesh (some 0) 0 0 wst).1 = some ⟨0, 0, 1⟩)) := by
  have hv : closest_vertex wmesh 0 wst.picked_point_ = some (1, 4) := by
    norm_num [closest_vertex, vertex_step, Mesh.face_hedges, wmesh, wst,
      init_picker, distance2, Vec3.dot, Vec3.sub, List.getD]
  have he : closest_edge wgeom wmesh 0 wst.picked_point_ = some (⟨0, 0, 1⟩, 0) := by
    norm_num [closest_edge, edge_step, Mesh.face_hedges, wmesh, wst, wgeom,
      init_picker, distance2, Vec3.dot, Vec3.sub, List.getD, degen_threshold]
  exact ⟨rfl, hv, he,
    hit_resolution_strict_boundary wgeom wcam wmesh 0 0 wst 0 1 4 ⟨0, 0, 1⟩ 0
      rfl hv he⟩

lemma edge_step_skip (geom : Geom) (m : Mesh) (pt : Vec3)
    (acc : Option (Halfedge × ℚ)) (h : Halfedge)
    (hdeg : ¬ degen_threshold < distance2 (m.pos h.from_v) (m.pos h.to_v)) :
    edge_step geom m pt acc h = acc := by
  simp [edge_step, hdeg]

lemma edge_step_first (geom : Geom) (m : Mesh) (pt : Vec3) (h : Halfedge)
    (hdeg : degen_threshold < distance2 (m.pos h.from_v) (m.pos h.to_v)) :
    edge_step geom m pt none h =
      some (h, geom.seg_sqdist3 (m.pos h.from_v) (m.pos h.to_v) pt) := by
  simp [edge_step, hdeg]

lemma edge_step_better (geom : Geom) (m : Mesh) (pt : Vec3) (h e0 : Halfedge)
    (d0 : ℚ)
    (hdeg : degen_threshold < distance2 (m.pos h.from_v) (m.pos h.to_v))
    (hc : geom.seg_sqdist3 (m.pos h.from_v) (m.pos h.to_v) pt < d0) :
    edge_step geom m pt (some (e0, d0)) h =
      some (h, geom.seg_sqdist3 (m.pos h.from_v) (m.pos h.to_v) pt) := by
  simp [edge_step, hdeg, hc]

lemma edge_step_keep (geom : Geom) (m : Mesh) (pt : Vec3) (h e0 : Halfedge)
    (d0 : ℚ)
    (hdeg : degen_threshold < distance2 (m.pos h.from_v) (m.pos h.to_v))
    (hc : ¬ geom.seg_sqdist3 (m.pos h.from_v) (m.pos h.to_v) pt < d0) :
    edge_step geom m pt (some (e0, d0)) h = some (e0, d0) := by
  simp [edge_step, hdeg, hc]

lemma edge_fold_nondegen (geom : Geom) (m : Mesh) (pt : Vec3) :
    ∀ (l : List Halfedge) (acc : Option (Halfedge × ℚ)),
      (∀ e d, acc = some (e, d) →
        degen_threshold < distance2 (m.pos e.from_v) (m.pos e.to_v)) →
      ∀ e d, l.foldl (edge_step geom m pt) acc = some (e, d) →
        degen_threshold < distance2 (m.pos e.from_v) (m.pos e.to_v) := by
  intro l
  induction l with
  | nil =>
    intro acc hacc e d h
    exact hacc e d h
  | cons hd tl ih =>
    intro acc hacc e d h
    rw [List.foldl_cons] at h
    refine ih (edge_step geom m pt acc hd) ?_ e d h
    intro e2 d2 hstep
    by_cases hdeg : degen_threshold < distance2 (m.pos hd.from_v) (m.pos hd.to_v)
    · cases acc with
      | none =>
        rw [edge_step_first geom m pt hd hdeg] at hstep
        simp only [Option.some.injEq, Prod.mk.injEq] at hstep
        obtain ⟨h1, _⟩ := hstep
        rw [← h1]
        exact hdeg
      | some t =>
        obtain ⟨e0, d0⟩ := t
        by_cases hc : geom.seg_sqdist3 (m.pos hd.from_v) (m.pos hd.to_v) pt < d0
        · rw [edge_step_better geom m pt hd e0 d0 hdeg hc] at hstep
          simp only [Option.some.injEq, Prod.mk.injEq] at hstep
          obtain ⟨h1, _⟩ := hstep
          rw [← h1]
          exact hdeg
        · rw [edge_step_keep geom m pt hd e0 d0 hdeg hc] at hstep
          exact hacc e2 d2 hstep
    · rw [edge_step_skip geom m pt acc hd hdeg] at hstep
      exact hacc e2 d2 hstep

lemma closest_edge_nondegen (geom : Geom) (m : Mesh) (f : Nat) (pt : Vec3)
    (e : Halfedge) (d : ℚ)
    (h : closest_edge geom m f pt = some (e, d)) :
    degen_threshold < distance2 (m.pos e.from_v) (m.pos e.to_v) := by
  refine edge_fold_nondegen geom m pt (m.face_hedges f) none ?_ e d h
  intro e2 d2 h2
  exact absurd h2 (by simp)

lemma pick_edge_none_of_no_closest (geom : Geom) (cam : Camera) (m : Mesh)
    (f : Nat) (x y : Int) (st : PickerState)
    (hpf : st.picked_face_ = some f)
    (hc : closest_edge geom m f st.picked_point_ = none) :
    (pick_edge geom cam m (some f) x y st).1 = none := by
  simp [pick_edge, hpf, hc]

lemma pick_edge_ret_closest (geom : Geom) (cam : Camera) (m : Mesh) (f : Nat)
    (x y : Int) (st : PickerState) (e : Halfedge)
    (h : (pick_edge geom cam m (some f) x y st).1 = some e) :
    ∃ d, closest_edge geom m f st.picked_point_ = some (e, d) := by
  by_cases heq : (some f : Option Nat) = st.picked_face_
  · rcases hc : closest_edge geom m f st.picked_point_ with _ | ⟨e0, d0⟩
    · exfalso
      rw [pick_edge_none_of_no_closest geom cam m f x y st heq.symm hc] at h
      exact absurd h (by simp)
    · have hacc := pick_edge_accept_eq geom cam m x y st f e0 d0 heq.symm hc
      rw [hacc] at h
      by_cases hd : dist_lt (geom.seg_sqdist2 (cam.project (m.pos e0.from_v))
          (cam.project (m.pos e0.to_v)) ⟨(x : ℚ), (y : ℚ)⟩) st.hit_resolution_ = true
      · rw [if_pos hd] at h
        have he0 : e0 = e := by simpa using h
        subst he0
        exact ⟨d0, rfl⟩
      · rw [if_neg hd] at h
        exact absurd h (by simp)
  · have hne : (some f : Option Nat) ≠ st.picked_face_ := heq
    rw [pick_edge] at h
    rw [if_pos hne] at h
    exact absurd h (by simp)

/-- C5: a boundary halfedge of the scanned face whose two endpoint
positions are within `1e-10` squared distance of each other is never
returned by `pick_edge`, whatever the cached impact point and screen
coordinates are: only edges with endpoint squared distance strictly above
the threshold are considered. -/
theorem pick_edge_skips_degenerate
    (geom : Geom) (cam : Camera) (m : Mesh) (f : Nat) (x y : Int)
    (st : PickerState) (e : Halfedge)
    (_hmem : e ∈ m.face_hedges f)
    (hdeg : distance2 (m.pos e.from_v) (m.pos e.to_v) ≤ degen_threshold) :
    (pick_edge geom cam m (some f) x y st).1 ≠ some e := by
  intro hret
  obtain ⟨d, hc⟩ := pick_edge_ret_closest geom cam m f x y st e hret
  have hnd := closest_edge_nondegen geom m f st.picked_point_ e d hc
  exact absurd hnd (not_lt.mpr hdeg)

/-- Witness for C5: the degenerate boundary halfedge `⟨0, 0, 0⟩` of the
witness mesh's face 0 (both endpoints at the origin) is never returned. -/
theorem pick_edge_skips_degenerate_witness :
    (⟨0, 0, 0⟩ : Halfedge) ∈ wmesh4.face_hedges 0 ∧
    distance2 (wmesh4.pos 0) (wmesh4.pos 0) ≤ degen_threshold ∧
    (pick_edge wgeom wcam wmesh4 (some 0) 0 0 wst).1 ≠ some ⟨0, 0, 0⟩ := by
  have hdeg : distance2 (wmesh4.pos 0) (wmesh4.pos 0) ≤ degen_threshold := by
    norm_num [wmesh4, distance2, Vec3.dot, Vec3.sub, degen_threshold]
  exact ⟨by decide, hdeg,
    pick_edge_skips_degenerate wgeom wcam wmesh4 0 0 0 wst ⟨0, 0, 0⟩
      (by decide) hdeg⟩

lemma pick_face_cpu_cases (geom : Geom) (cam : Camera) (m : Mesh) (x y : Int)
    (st : PickerState) :
    pick_face_cpu geom cam m x y st = (none, { st with picked_face_ := none }) ∨
    ∃ j p, pick_face_cpu geom cam m x y st =
      (some j, { st with picked_face_ := some j, picked_point_ := p }) := by
  unfold pick_face_cpu
  cases cpu_scan geom m (cam.picking_line x y) (cam.unproject x y 0)
      (fun i => geom.do_intersect m i (cam.unproject x y 0) (cam.unproject x y 1))
      (count_range 0 m.faces_size) none with
  | none => exact Or.inl rfl
  | some t =>
    obtain ⟨j, p, sv⟩ := t
    exact Or.inr ⟨j, p, rfl⟩

lemma pick_face_cpu_use_gpu (geom : Geom) (cam : Camera) (m : Mesh) (x y : Int)
    (st : PickerState) :
    (pick_face_cpu geom cam m x y st).2.use_gpu_ = st.use_gpu_ := by
  rcases pick_face_cpu_cases geom cam m x y st with h | ⟨j, p, h⟩ <;> rw [h]

lemma pick_face_cpu_ret_indep (geom : Geom) (cam : Camera) (m : Mesh) (x y : Int)
    (st st2 : PickerState) :
    (pick_face_cpu geom cam m x y st).1 = (pick_face_cpu geom cam m x y st2).1 := by
  unfold pick_face_cpu
  cases cpu_scan geom m (cam.picking_line x y) (cam.unproject x y 0)
      (fun i => geom.do_intersect m i (cam.unproject x y 0) (cam.unproject x y 1))
      (count_range 0 m.faces_size) none with
  | none => rfl
  | some t =>
    obtain ⟨j, p, sv⟩ := t
    rfl

lemma pick_face_gpu_point (env : CallEnv) (m : Mesh) (st : PickerState) :
    (pick_face_gpu env m st).2.1.picked_point_ = st.picked_point_ := rfl

lemma pick_face_gpu_use_gpu (env : CallEnv) (m : Mesh) (st : PickerState) :
    (pick_face_gpu env m st).2.1.use_gpu_ = st.use_gpu_ := rfl

lemma pick_face_gpu_ret_indep (env : CallEnv) (m : Mesh) (st st2 : PickerState) :
    (pick_face_gpu env m st).1 = (pick_face_gpu env m st2).1 := rfl

lemma pick_face_mode_mgr (geom : Geom) (cam : Camera) (env : CallEnv) (m : Mesh)
    (x y : Int) (g : GlobalState)
    (hu : g.picker.use_gpu_ = true) (hm : g.mgr_has_program = true) :
    pick_face geom cam env (some m) x y g =
      ⟨(pick_face_gpu env m { g.picker with program_ := true }).1,
        ⟨(pick_face_gpu env m { g.picker with program_ := true }).2.1, true⟩,
        true, false,
        (pick_face_gpu env m { g.picker with program_ := true }).2.2⟩ := by
  simp [pick_face, hu, hm]

lemma pick_face_mode_compile_ok (geom : Geom) (cam : Camera) (env : CallEnv)
    (m : Mesh) (x y : Int) (g : GlobalState)
    (hu : g.picker.use_gpu_ = true) (hm : g.mgr_has_program = false)
    (hc : env.compile_ok = true) :
    pick_face geom cam env (some m) x y g =
      ⟨(pick_face_gpu env m
          { g.picker with program_ := true, use_gpu_ := true }).1,
        ⟨(pick_face_gpu env m
          { g.picker with program_ := true, use_gpu_ := true }).2.1, true⟩,
        true, true,
        (pick_face_gpu env m
          { g.picker with program_ := true, use_gpu_ := true }).2.2⟩ := by
  simp [pick_face, hu, hm, hc]

lemma pick_face_mode_compile_fail (geom : Geom) (cam : Camera) (env : CallEnv)
    (m : Mesh) (x y : Int) (g : GlobalState)
    (hu : g.picker.use_gpu_ = true) (hm : g.mgr_has_program = false)
    (hc : env.compile_ok = false) :
    pick_face geom cam env (some m) x y g =
      ⟨(pick_face_cpu geom cam m x y
          { g.picker with program_ := false, use_gpu_ := false }).1,
        ⟨(pick_face_cpu geom cam m x y
          { g.picker with program_ := false, use_gpu_ := false }).2, false⟩,
        false, true, false⟩ := by
  simp [pick_face, hu, hm, hc]

lemma pick_face_mode_cpu (geom : Geom) (cam : Camera) (env : CallEnv)
    (m : Mesh) (x y : Int) (g : GlobalState)
    (hu : g.picker.use_gpu_ = false) :
    pick_face geom cam env (some m) x y g =
      ⟨(pick_face_cpu geom cam m x y g.picker).1,
        ⟨(pick_face_cpu geom cam m x y g.picker).2, g.mgr_has_program⟩,
        false, false, false⟩ := by
  simp [pick_face, hu]

lemma pick_face_stays_cpu (geom : Geom) (cam : Camera) (env : CallEnv)
    (model : Option Mesh) (x y : Int) (g : GlobalState)
    (h : g.picker.use_gpu_ = false) :
    (pick_face geom cam env model x y g).state.picker.use_gpu_ = false ∧
    (pick_face geom cam env model x y g).took_gpu = false ∧
    (pick_face geom cam env model x y g).attempted_compile = false := by
  cases model with
  | none => exact ⟨h, rfl, rfl⟩
  | some m =>
    rw [pick_face_mode_cpu geom cam env m x y g h]
    exact ⟨(pick_face_cpu_use_gpu geom cam m x y g.picker).trans h, rfl, rfl⟩

lemma run_calls_stays_cpu (geom : Geom) (cam : Camera) :
    ∀ (calls : List (CallEnv × Option Mesh × Int × Int)) (g : GlobalState),
      g.picker.use_gpu_ = false →
      (run_calls geom cam calls g).1.picker.use_gpu_ = false ∧
      ∀ r ∈ (run_calls geom cam calls g).2,
        r.took_gpu = false ∧ r.attempted_compile = false := by
  intro calls
  induction calls with
  | nil =>
    intro g hg
    refine ⟨hg, ?_⟩
    intro r hr
    simp [run_calls] at hr
  | cons c rest ih =>
    obtain ⟨env, model, x, y⟩ := c
    intro g hg
    have h1 := pick_face_stays_cpu geom cam env model x y g hg
    have h2 := ih (pick_face geom cam env model x y g).state h1.1
    constructor
    · simpa [run_calls] using h2.1
    · intro r hr
      simp only [run_calls] at hr
      rw [List.mem_cons] at hr
      rcases hr with hr | hr
      · subst hr
        exact ⟨h1.2.1, h1.2.2⟩
      · exact h2.2 r hr

/-- C6: the GPU-mode flag is one-directional: when shader lookup and
compilation both fail on a `pick_face` call on a non-null mesh, `use_gpu_`
becomes false, that call already takes the CPU path, and every later
`pick_face` call on the instance keeps `use_gpu_` false, never re-attempts
compilation, and takes the CPU path. -/
theorem gpu_downgrade_permanent
    (geom : Geom) (cam : Camera) (env : CallEnv) (m : Mesh) (x y : Int)
    (g : GlobalState)
    (hu : g.picker.use_gpu_ = true) (hm : g.mgr_has_program = false)
    (hc : env.compile_ok = false) :
    (pick_face geom cam env (some m) x y g).state.picker.use_gpu_ = false ∧
    (pick_face geom cam env (some m) x y g).took_gpu = false ∧
    (pick_face geom cam env (some m) x y g).attempted_compile = true ∧
    ∀ calls,
      (run_calls geom cam calls
        (pick_face geom cam env (some m) x y g).state).1.picker.use_gpu_ = false ∧
      ∀ r ∈ (run_calls geom cam calls
          (pick_face geom cam env (some m) x y g).state).2,
        r.took_gpu = false ∧ r.attempted_compile = false := by
  have hmode := pick_face_mode_compile_fail geom cam env m x y g hu hm hc
  have hstate : (pick_face geom cam env (some m) x y g).state.picker.use_gpu_ =
      false := by
    rw [hmode]
    exact (pick_face_cpu_use_gpu geom cam m x y _).trans rfl
  refine ⟨hstate, by rw [hmode], by rw [hmode], ?_⟩
  intro calls
  exact run_calls_stays_cpu geom cam calls _ hstate

/-- Witness for C6: a fresh picker with an empty shader-manager cache and
a failing compilation permanently downgrades to the CPU path. -/
theorem gpu_downgrade_permanent_witness :
    wg_nomgr.picker.use_gpu_ = true ∧ wg_nomgr.mgr_has_program = false ∧
    wenv_fail.compile_ok = false ∧
    ((pick_face wgeom wcam wenv_fail (some wmesh) 0 0
        wg_nomgr).state.picker.use_gpu_ = false ∧
     (pick_face wgeom wcam wenv_fail (some wmesh) 0 0 wg_nomgr).took_gpu = false ∧
     (pick_face wgeom wcam wenv_fail (some wmesh) 0 0
        wg_nomgr).attempted_compile = true ∧
     ∀ calls,
       (run_calls wgeom wcam calls
         (pick_face wgeom wcam wenv_fail (some wmesh) 0 0
           wg_nomgr).state).1.picker.use_gpu_ = false ∧
       ∀ r ∈ (run_calls wgeom wcam calls
           (pick_face wgeom wcam wenv_fail (some wmesh) 0 0 wg_nomgr).state).2,
         r.took_gpu = false ∧ r.attempted_compile = false) :=
  ⟨rfl, rfl, rfl,
    gpu_downgrade_permanent wgeom wcam wenv_fail wmesh 0 0 wg_nomgr rfl rfl rfl⟩

/-- C7: when the GPU path decodes an id ≥ 0 but the mesh lacks the
`f:triangle_range` property, `pick_face` logs an error and returns the
invalid face handle for that call only, leaving `use_gpu_` true, so any
later `pick_face` call on a non-null mesh still takes the GPU path. -/
theorem missing_triangle_range_error_is_local
    (geom : Geom) (cam : Camera) (env : CallEnv) (m : Mesh) (x y : Int)
    (g : GlobalState)
    (hid : 0 ≤ env.pixel_id) (htr : m.triangle_range = none)
    (hu : g.picker.use_gpu_ = true) (hm : g.mgr_has_program = true) :
    (pick_face geom cam env (some m) x y g).ret = none ∧
    (pick_face geom cam env (some m) x y g).err_logged = true ∧
    (pick_face geom cam env (some m) x y g).took_gpu = true ∧
    (pick_face geom cam env (some m) x y g).state.picker.use_gpu_ = true ∧
    ∀ env2 m2 x2 y2,
      (pick_face geom cam env2 (some m2) x2 y2
        (pick_face geom cam env (some m) x y g).state).took_gpu = true := by
  have hdec : gpu_decode env m = (none, true) := by
    unfold gpu_decode
    rw [if_pos hid, htr]
  have hmode := pick_face_mode_mgr geom cam env m x y g hu hm
  have hgpu : pick_face_gpu env m { g.picker with program_ := true } =
      (none, { g.picker with program_ := true, picked_face_ := none }, true) := by
    unfold pick_face_gpu
    rw [hdec]
  rw [hmode, hgpu]
  refine ⟨rfl, rfl, rfl, hu, ?_⟩
  intro env2 m2 x2 y2
  have hu2 : (⟨{ g.picker with program_ := true, picked_face_ := none },
      true⟩ : GlobalState).picker.use_gpu_ = true := hu
  rw [pick_face_mode_mgr geom cam env2 m2 x2 y2 _ hu2 rfl]

/-- Witness for C7: decoded id 2 on the mesh without the property makes
the call fail locally while the next call still takes the GPU path. -/
theorem missing_triangle_range_error_is_local_witness :
    0 ≤ wenv.pixel_id ∧ wmesh.triangle_range = none ∧
    wg.picker.use_gpu_ = true ∧ wg.mgr_has_program = true ∧
    ((pick_face wgeom wcam wenv (some wmesh) 0 0 wg).ret = none ∧
     (pick_face wgeom wcam wenv (some wmesh) 0 0 wg).err_logged = true ∧
     (pick_face wgeom wcam wenv (some wmesh) 0 0 wg).took_gpu = true ∧
     (pick_face wgeom wcam wenv (some wmesh) 0 0 wg).state.picker.use_gpu_ = true ∧
     ∀ env2 m2 x2 y2,
       (pick_face wgeom wcam env2 (some m2) x2 y2
         (pick_face wgeom wcam wenv (some wmesh) 0 0 wg).state).took_gpu = true) :=
  ⟨by decide, rfl, rfl, rfl,
    missing_triangle_range_error_is_local wgeom wcam wenv wmesh 0 0 wg
      (by decide) rfl rfl rfl⟩

/-- C8: a `pick_face` call that takes the GPU path never writes
`picked_point_`: the field keeps its previous value, and a subsequent
`picked_point()` accessor call returns that stale or default value. -/
theorem gpu_pick_leaves_point_stale
    (geom : Geom) (cam : Camera) (env : CallEnv) (model : Option Mesh)
    (x y : Int) (g : GlobalState)
    (h : (pick_face geom cam env model x y g).took_gpu = true) :
    (pick_face geom cam env model x y g).state.picker.picked_point_ =
      g.picker.picked_point_ ∧
    (picked_point (pick_face geom cam env model x y g).state.picker).2 =
      g.picker.picked_point_ := by
  suffices hs : (pick_face geom cam env model x y g).state.picker.picked_point_ =
      g.picker.picked_point_ by
    exact ⟨hs, hs⟩
  cases model with
  | none => rfl
  | some m =>
    by_cases hu : g.picker.use_gpu_ = true
    · by_cases hm : g.mgr_has_program = true
      · rw [pick_face_mode_mgr geom cam env m x y g hu hm]
        exact (pick_face_gpu_point env m _).trans rfl
      · have hm2 : g.mgr_has_program = false := by simpa using hm
        by_cases hc : env.compile_ok = true
        · rw [pick_face_mode_compile_ok geom cam env m x y g hu hm2 hc]
          exact (pick_face_gpu_point env m _).trans rfl
        · have hc2 : env.compile_ok = false := by simpa using hc
          rw [pick_face_mode_compile_fail geom cam env m x y g hu hm2 hc2] at h
          exact absurd h (by simp)
    · have hu2 : g.picker.use_gpu_ = false := by simpa using hu
      rw [pick_face_mode_cpu geom cam env m x y g hu2] at h
      exact absurd h (by simp)

/-- Witness for C8: a GPU-mode pick with background pixel id −1 leaves the
previously cached impact point untouched and `picked_point` still returns
it. -/
theorem gpu_pick_leaves_point_stale_witness :
    (pick_face wgeom wcam wenv_neg (some wmesh) 0 0 wg).took_gpu = true ∧
    ((pick_face wgeom wcam wenv_neg (some wmesh) 0 0
        wg).state.picker.picked_point_ = wg.picker.picked_point_ ∧
     (picked_point (pick_face wgeom wcam wenv_neg (some wmesh) 0 0
        wg).state.picker).2 = wg.picker.picked_point_) :=
  ⟨rfl, gpu_pick_leaves_point_stale wgeom wcam wenv_neg (some wmesh) 0 0 wg rfl⟩

/-- C9: `pick_face` is idempotent and blind to the cached picked state:
two successive calls with identical arguments return the same face handle,
and the returned handle does not depend on the `picked_face_` /
`picked_point_` (or `program_`) fields left by earlier calls, for both the
CPU and the GPU strategy. -/
theorem pick_face_idempotent
    (geom : Geom) (cam : Camera) (env : CallEnv) (model : Option Mesh)
    (x y : Int) (g g2 : GlobalState)
    (hu : g.picker.use_gpu_ = g2.picker.use_gpu_)
    (hm : g.mgr_has_program = g2.mgr_has_program) :
    (pick_face geom cam env model x y g).ret =
      (pick_face geom cam env model x y g2).ret ∧
    (pick_face geom cam env model x y
        (pick_face geom cam env model x y g).state).ret =
      (pick_face geom cam env model x y g).ret := by
  cases model with
  | none => exact ⟨rfl, rfl⟩
  | some m =>
    by_cases hgu : g.picker.use_gpu_ = true
    · by_cases hgm : g.mgr_has_program = true
      · have h1 := pick_face_mode_mgr geom cam env m x y g hgu hgm
        have h2 := pick_face_mode_mgr geom cam env m x y g2
          (hu.symm.trans hgu) (hm.symm.trans hgm)
        constructor
        · rw [h1, h2]
          rfl
        · have hu3 : (pick_face geom cam env (some m) x y
              g).state.picker.use_gpu_ = true := by
            rw [h1]
            exact (pick_face_gpu_use_gpu env m _).trans hgu
          have hm3 : (pick_face geom cam env (some m) x y
              g).state.mgr_has_program = true := by
            rw [h1]
          have h3 := pick_face_mode_mgr geom cam env m x y _ hu3 hm3
          rw [h3, h1]
          rfl
      · have hgm2 : g.mgr_has_program = false := by simpa using hgm
        by_cases hce : env.compile_ok = true
        · have h1 := pick_face_mode_compile_ok geom cam env m x y g hgu hgm2 hce
          have h2 := pick_face_mode_compile_ok geom cam env m x y g2
            (hu.symm.trans hgu) (hm.symm.trans hgm2) hce
          constructor
          · rw [h1, h2]
            rfl
          · have hu3 : (pick_face geom cam env (some m) x y
                g).state.picker.use_gpu_ = true := by
              rw [h1]
              exact (pick_face_gpu_use_gpu env m _).trans rfl
            have hm3 : (pick_face geom cam env (some m) x y
                g).state.mgr_has_program = true := by
              rw [h1]
            have h3 := pick_face_mode_mgr geom cam env m x y _ hu3 hm3
            rw [h3, h1]
            rfl
        · have hce2 : env.compile_ok = false := by simpa using hce
          have h1 := pick_face_mode_compile_fail geom cam env m x y g hgu hgm2 hce2
          have h2 := pick_face_mode_compile_fail geom cam env m x y g2
            (hu.symm.trans hgu) (hm.symm.trans hgm2) hce2
          constructor
          · rw [h1, h2]
            dsimp only
            exact pick_face_cpu_ret_indep geom cam m x y _ _
          · have hu3 : (pick_face geom cam env (some m) x y
                g).state.picker.use_gpu_ = false := by
              rw [h1]
              exact (pick_face_cpu_use_gpu geom cam m x y _).trans rfl
            have h3 := pick_face_mode_cpu geom cam env m x y _ hu3
            rw [h3, h1]
            dsimp only
            exact pick_face_cpu_ret_indep geom cam m x y _ _
    · have hgu2 : g.picker.use_gpu_ = false := by simpa using hgu
      have h1 := pick_face_mode_cpu geom cam env m x y g hgu2
      have h2 := pick_face_mode_cpu geom cam env m x y g2 (hu.symm.trans hgu2)
      constructor
      · rw [h1, h2]
        dsimp only
        exact pick_face_cpu_ret_indep geom cam m x y _ _
      · have hu3 : (pick_face geom cam env (some m) x y
            g).state.picker.use_gpu_ = false := by
          rw [h1]
          exact (pick_face_cpu_use_gpu geom cam m x y _).trans hgu2
        have h3 := pick_face_mode_cpu geom cam env m x y _ hu3
        rw [h3, h1]
        dsimp only
        exact pick_face_cpu_ret_indep geom cam m x y _ _

/-- Witness for C9: two global states differing only in the cached picked
face and point give the same result, and a repeated call agrees with the
first. -/
theorem pick_face_idempotent_witness :
    wg.picker.use_gpu_ = wg2.picker.use_gpu_ ∧
    wg.mgr_has_program = wg2.mgr_has_program ∧
    ((pick_face wgeom wcam wenv_neg (some wmesh) 0 0 wg).ret =
      (pick_face wgeom wcam wenv_neg (some wmesh) 0 0 wg2).ret ∧
     (pick_face wgeom wcam wenv_neg (some wmesh) 0 0
        (pick_face wgeom wcam wenv_neg (some wmesh) 0 0 wg).state).ret =
      (pick_face wgeom wcam wenv_neg (some wmesh) 0 0 wg).ret) :=
  ⟨rfl, rfl,
    pick_face_idempotent wgeom wcam wenv_neg (some wmesh) 0 0 wg wg2 rfl rfl⟩

/-- C10: when the CPU path finds no hit (no face passes both the bounding
test and the plane-line intersection), `pick_face_cpu` sets `picked_face_`
to the invalid handle but leaves `picked_point_` unchanged, and a
subsequent `picked_point()` call logs an error yet still returns the
retained stale point. -/
theorem cpu_no_hit_keeps_stale_point
    (geom : Geom) (cam : Camera) (m : Mesh) (x y : Int) (st : PickerState)
    (hmiss : ∀ i, i < m.faces_size → cpu_cand geom cam m x y i = false) :
    pick_face_cpu geom cam m x y st = (none, { st with picked_face_ := none }) ∧
    picked_point (pick_face_cpu geom cam m x y st).2 = (true, st.picked_point_) := by
  have h0 : scan_good geom m (cam.picking_line x y) (cam.unproject x y 0)
      (fun i => geom.do_intersect m i (cam.unproject x y 0) (cam.unproject x y 1))
      0 none := by
    intro i hi
    exact absurd hi (Nat.not_lt_zero i)
  have hg := cpu_scan_good geom m (cam.picking_line x y) (cam.unproject x y 0)
      (fun i => geom.do_intersect m i (cam.unproject x y 0) (cam.unproject x y 1))
      m.faces_size 0 none h0
  rw [Nat.zero_add] at hg
  have hnone : cpu_scan geom m (cam.picking_line x y) (cam.unproject x y 0)
      (fun i => geom.do_intersect m i (cam.unproject x y 0) (cam.unproject x y 1))
      (count_range 0 m.faces_size) none = none := by
    cases hs : cpu_scan geom m (cam.picking_line x y) (cam.unproject x y 0)
        (fun i => geom.do_intersect m i (cam.unproject x y 0) (cam.unproject x y 1))
        (count_range 0 m.faces_size) none with
    | none => rfl
    | some t =>
      obtain ⟨j, p, sv⟩ := t
      rw [hs] at hg
      simp only [scan_good] at hg
      obtain ⟨h1, h2, h3, _⟩ := hg
      have hc := hmiss j h1
      rw [cpu_cand, h2, h3] at hc
      simp at hc
  constructor
  · unfold pick_face_cpu
    rw [hnone]
  · unfold pick_face_cpu
    rw [hnone]
    rfl

/-- Witness for C10: with face normals orthogonal to the picking direction
every plane-line intersection fails, so no face is hit; the cached point
survives and `picked_point` reports an error with the stale value. -/
theorem cpu_no_hit_keeps_stale_point_witness :
    (∀ i, i < wmesh3.faces_size → cpu_cand wgeom wcam wmesh3 0 0 i = false) ∧
    (pick_face_cpu wgeom wcam wmesh3 0 0 wst =
      (none, { wst with picked_face_ := none }) ∧
     picked_point (pick_face_cpu wgeom wcam wmesh3 0 0 wst).2 =
      (true, wst.picked_point_)) := by
  have hmiss : ∀ i, i < wmesh3.faces_size → cpu_cand wgeom wcam wmesh3 0 0 i = false := by
    intro i hi
    have hs : wmesh3.faces_size = 2 := rfl
    rw [hs] at hi
    have h2 : i = 0 ∨ i = 1 := by omega
    rcases h2 with rfl | rfl <;>
      norm_num [cpu_cand, wgeom, wcam, wmesh3, wmesh, face_plane, Mesh.face_hedges,
        Vec3.dot, Vec3.sub, List.getD]
  exact ⟨hmiss, cpu_no_hit_keeps_stale_point wgeom wcam wmesh3 0 0 wst hmiss⟩

/-- Witness for C1: on the two-face witness mesh both faces are hit and
both planes intersect the picking line, at squared distances 4 (face 0)
and 1 (face 1); the CPU pick returns face 1 and the minimality conclusion
holds there. -/
theorem pick_face_cpu_selects_min_distance_face_witness :
    (pick_face_cpu wgeom wcam wmesh 0 0 init_picker).1 = some 1 ∧
    (cpu_cand wgeom wcam wmesh 0 0 1 = true ∧ 1 < wmesh.faces_size ∧
      ∃ p, wgeom.plane_intersect (face_plane wmesh 1) (wcam.picking_line 0 0) =
          some p ∧
        (pick_face_cpu wgeom wcam wmesh 0 0 init_picker).2.picked_point_ = p ∧
        ∀ i q, i < wmesh.faces_size → cpu_cand wgeom wcam wmesh 0 0 i = true →
          wgeom.plane_intersect (face_plane wmesh i) (wcam.picking_line 0 0) =
            some q →
            distance2 p (wcam.unproject 0 0 0) ≤ distance2 q (wcam.unproject 0 0 0) ∧
            (distance2 q (wcam.unproject 0 0 0) =
              distance2 p (wcam.unproject 0 0 0) → 1 ≤ i)) := by
  have hj : (pick_face_cpu wgeom wcam wmesh 0 0 init_picker).1 = some 1 := by
    have hr : count_range 0 wmesh.faces_size = [0, 1] := rfl
    norm_num [pick_face_cpu, hr, cpu_scan, cpu_step, face_plane, Mesh.face_hedges,
      Mesh.faces_size, distance2, distance2v2, Vec3.dot, Vec3.sub,
      wgeom, wcam, wmesh, init_picker]
  exact ⟨hj,
    pick_face_cpu_selects_min_distance_face wgeom wcam wmesh 0 0 init_picker 1 hj⟩
